import Mathlib

/-!
Shallow embedding of `src/supabase.js`, the search-analytics recorder
`updateSearchCount(searchTerm, movie)` of the react-movie-app repository.

The function performs one remote read (select rows of the `metrics` table
whose `searchTerm` column equals the argument, limited to one row), then
either updates the found row (setting only `count` to the old count plus
one, addressed by the row id) or inserts one new row, all inside a single
try/catch that logs and swallows every error.

The remote storage is modelled as a list of rows inside an environment
that also carries injected outcomes for the three remote calls (select,
update, insert), the id the storage assigns to an inserted row and the
creation timestamp it defaults.  Each run returns the resulting table, a
trace of the remote operations issued, the console-error log lines and the
resolution value of the returned promise.
-/

/-- JavaScript values as they can appear in the fields of the `movie`
argument and in stored cells: `null`, `undefined`, numbers and strings. -/
inductive JsValue where
  | vNull
  | vUndefined
  | vInt (i : Int)
  | vStr (s : String)
deriving DecidableEq, Repr

/-- String interpolation of a JsValue inside a template literal:
null prints as "null", undefined as "undefined". -/
def jsTemplate : JsValue → String
  | JsValue.vNull => "null"
  | JsValue.vUndefined => "undefined"
  | JsValue.vInt i => toString i
  | JsValue.vStr s => s

/-- The `movie` argument.  A nullish value (JS `null` or `undefined`) makes
any field access throw a TypeError; an object carries the two fields the
code reads, `id` and `poster_path`, each possibly `undefined` when the
field is absent. -/
inductive MovieArg where
  | nullish
  | obj (id : JsValue) (poster_path : JsValue)
deriving DecidableEq, Repr

/-- Errors that can be thrown inside the body: a TypeError from reading a
field of a nullish movie, or an error object returned by a remote call and
re-thrown by the code. -/
inductive JsError where
  | typeError
  | storageError (code : String)
deriving DecidableEq, Repr

/-- Rendering of an error for the console.error line. -/
def jsErrorText : JsError → String
  | JsError.typeError => "TypeError"
  | JsError.storageError c => c

/-- A row of the `metrics` table, with the columns the code touches:
`id` (storage-generated key), `searchTerm`, `count`, `movie_id`,
`poster_url` and the storage-defaulted `created_at`. -/
structure Row where
  id : Nat
  searchTerm : String
  count : Int
  movie_id : JsValue
  poster_url : String
  created_at : Nat
deriving DecidableEq, Repr

/-- Environment of one invocation: the current table contents, the
injected outcome of each remote call (`none` means the call succeeds,
`some e` means the client returns the error object `e`), the id storage
would assign to an inserted row, and the timestamp it would default. -/
structure Env where
  db : List Row
  selectError : Option JsError
  updateError : Option JsError
  insertError : Option JsError
  nextId : Nat
  now : Nat
deriving DecidableEq, Repr

/-- One remote operation issued by the function, as recorded in the trace:
the select, an update of `count` addressed by row id, or an insert of one
new row. -/
inductive RemoteOp where
  | read (term : String)
  | writeUpdate (rowId : Nat) (newCount : Int)
  | writeInsert (term : String) (count : Int) (movie_id : JsValue) (poster_url : String)
deriving DecidableEq, Repr

/-- Whether a trace entry is the remote read. -/
def RemoteOp.isRead : RemoteOp → Bool
  | RemoteOp.read _ => true
  | _ => false

/-- Whether a trace entry is a remote write (update or insert). -/
def RemoteOp.isWrite : RemoteOp → Bool
  | RemoteOp.read _ => false
  | _ => true

/-- Semantics of the select on the metrics table, filtered by equality on
the searchTerm column with result limit 1: the rows whose `searchTerm`
column equals the argument, limited to one. -/
def selectByTerm (db : List Row) (t : String) : List Row :=
  (db.filter (fun r => r.searchTerm == t)).take 1

/-- Semantics of the update call whose payload holds only the count column,
addressed by equality on the id column: every row whose id matches gets its
`count` column replaced, all other columns and all other rows untouched. -/
def applyUpdate (db : List Row) (rowId : Nat) (newCount : Int) : List Row :=
  db.map (fun r => if r.id == rowId then { r with count := newCount } else r)

/-- The row built by the insert branch: `count = 1`, the search term, the
movie id and the constructed poster URL, with `id` and `created_at`
assigned by storage. -/
def insertedRow (env : Env) (t : String) (movieId : JsValue) (posterUrl : String) : Row :=
  { id := env.nextId, searchTerm := t, count := 1, movie_id := movieId,
    poster_url := posterUrl, created_at := env.now }

/-- Reading `movie.id`: throws a TypeError on a nullish movie. -/
def MovieArg.getId : MovieArg → Except JsError JsValue
  | MovieArg.nullish => Except.error JsError.typeError
  | MovieArg.obj i _ => Except.ok i

/-- Reading `movie.poster_path`: throws a TypeError on a nullish movie. -/
def MovieArg.getPosterPath : MovieArg → Except JsError JsValue
  | MovieArg.nullish => Except.error JsError.typeError
  | MovieArg.obj _ p => Except.ok p

/-- The fixed image-host part of the constructed poster URL. -/
def posterBase : String := "https://image.tmdb.org/t/p/w500"

/-- Outcome of the try-block body: the table after the run, the trace of
remote operations issued, and the error that was thrown inside the body,
if any (it is about to be caught by the catch clause). -/
structure BodyResult where
  db : List Row
  ops : List RemoteOp
  err : Option JsError
deriving DecidableEq, Repr

/-- The part of the body that runs after the select response arrived:
`existingRecords` is the data the select returned.  If it is non-empty the
code takes the update branch (reading only `count` and `id` of the first
record and never touching the movie argument); otherwise it evaluates the
insert payload, which reads `movie.id` and interpolates
`movie.poster_path` after the fixed URL part, and issues the insert.  A
returned error object from the write is thrown; a TypeError from a nullish
movie is thrown before any write is issued. -/
def writeStep (env : Env) (t : String) (movie : MovieArg)
    (existingRecords : List Row) : BodyResult :=
  if existingRecords.length > 0 then
    match existingRecords.head? with
    | some record =>
      let newCount := record.count + 1
      let ops := [RemoteOp.read t, RemoteOp.writeUpdate record.id newCount]
      match env.updateError with
      | some e => { db := env.db, ops := ops, err := some e }
      | none => { db := applyUpdate env.db record.id newCount, ops := ops, err := none }
    | none => { db := env.db, ops := [RemoteOp.read t], err := none }
  else
    match movie.getId, movie.getPosterPath with
    | Except.ok movieId, Except.ok posterPath =>
      let posterUrl := posterBase ++ jsTemplate posterPath
      let ops := [RemoteOp.read t, RemoteOp.writeInsert t 1 movieId posterUrl]
      match env.insertError with
      | some e => { db := env.db, ops := ops, err := some e }
      | none =>
        { db := env.db ++ [insertedRow env t movieId posterUrl], ops := ops, err := none }
    | _, _ => { db := env.db, ops := [RemoteOp.read t], err := some JsError.typeError }

/-- The whole try-block body: issue the select; a returned select error is
thrown at once (before any write), otherwise continue with `writeStep` on
the rows the select observed in the current table. -/
def updateSearchCountBody (env : Env) (t : String) (movie : MovieArg) : BodyResult :=
  match env.selectError with
  | some e => { db := env.db, ops := [RemoteOp.read t], err := some e }
  | none => writeStep env t movie (selectByTerm env.db t)

/-- Observable result of one invocation: the table, the operation trace,
the console-error lines, and the value the returned promise resolves
with. -/
structure RunResult where
  db : List Row
  ops : List RemoteOp
  logs : List String
  ret : JsValue
deriving DecidableEq, Repr

/-- The console.error line the catch clause emits. -/
def logLine (e : JsError) : String :=
  "Error updating search count: " ++ jsErrorText e

/-- The settled outcome of the promise `updateSearchCount` returns.  An
`Except.error` value would mean an exception escaped the function and
rejected the promise; the catch clause spans the whole body, logs the
caught error and falls off the end, so each arm resolves with
`undefined`. -/
def updateSearchCountOutcome (env : Env) (t : String) (movie : MovieArg) :
    Except JsError RunResult :=
  let b := updateSearchCountBody env t movie
  match b.err with
  | some e =>
    Except.ok { db := b.db, ops := b.ops, logs := [logLine e], ret := JsValue.vUndefined }
  | none =>
    Except.ok { db := b.db, ops := b.ops, logs := [], ret := JsValue.vUndefined }

/-- The run of one invocation of `updateSearchCount`: the body under the
try/catch, with every body error caught, logged and swallowed. -/
def updateSearchCount (env : Env) (t : String) (movie : MovieArg) : RunResult :=
  let b := updateSearchCountBody env t movie
  match b.err with
  | some e =>
    { db := b.db, ops := b.ops, logs := [logLine e], ret := JsValue.vUndefined }
  | none =>
    { db := b.db, ops := b.ops, logs := [], ret := JsValue.vUndefined }

/-- Two invocations for the same term interleaved at the await points so
that both selects complete before either write is issued: both observe the
table as it was before either invocation wrote.  The first environment
also supplies the initial table; the second supplies the injected write
outcomes and storage-assigned values of the second invocation, which runs
its write phase against the table the first write produced. -/
def raceBothReadFirst (envA envB : Env) (t : String) (m1 m2 : MovieArg) : List Row :=
  let obs1 := selectByTerm envA.db t
  let obs2 := selectByTerm envA.db t
  let db1 := (writeStep envA t m1 obs1).db
  (writeStep { envB with db := db1 } t m2 obs2).db

/-- Concrete stored row used by the concrete checks. -/
def rowB : Row :=
  { id := 7, searchTerm := "batman", count := 3, movie_id := JsValue.vInt 5,
    poster_url := "u", created_at := 0 }

/-- Concrete environment whose table already holds `rowB` and whose remote
calls all succeed. -/
def envB : Env :=
  { db := [rowB], selectError := none, updateError := none,
    insertError := none, nextId := 8, now := 1 }

/-- Concrete environment with an empty table and succeeding remote calls. -/
def envEmpty : Env :=
  { db := [], selectError := none, updateError := none,
    insertError := none, nextId := 1, now := 2 }

/-- Variant of `envEmpty` for the second invocation of the race check. -/
def envEmpty2 : Env :=
  { db := [], selectError := none, updateError := none,
    insertError := none, nextId := 2, now := 3 }

/-- Concrete environment whose select call returns an error object. -/
def envSelErr : Env :=
  { envB with selectError := some (JsError.storageError "boom") }

/-- Concrete movie object used by the concrete checks. -/
def movieB : MovieArg := MovieArg.obj (JsValue.vInt 5) (JsValue.vStr "/p.jpg")

/-- C1: in every invocation whose lookup succeeds and finds an existing row
`r` for the term (so with count N equal to `r.count`), the issued write is
exactly one update addressed at the id of that row setting count to N + 1,
no new row is created, and when the update call succeeds the resulting
table is the old table with the count of that row replaced by N + 1. -/
theorem C1_update_existing_row (env : Env) (t : String) (m : MovieArg) (r : Row)
    (hsel : env.selectError = none)
    (hrow : (selectByTerm env.db t).head? = some r) :
    (updateSearchCount env t m).ops
        = [RemoteOp.read t, RemoteOp.writeUpdate r.id (r.count + 1)] ∧
    (updateSearchCount env t m).db.length = env.db.length ∧
    (env.updateError = none →
      (updateSearchCount env t m).db = applyUpdate env.db r.id (r.count + 1)) := by
  rcases hlm : selectByTerm env.db t with _ | ⟨a, as⟩
  · rw [hlm] at hrow
    simp at hrow
  · rw [hlm] at hrow
    rw [List.head?_cons, Option.some_inj] at hrow
    subst hrow
    cases hupd : env.updateError with
    | some e =>
      simp [updateSearchCount, updateSearchCountBody, hsel, hlm, writeStep, hupd]
    | none =>
      simp [updateSearchCount, updateSearchCountBody, hsel, hlm, writeStep, hupd,
        applyUpdate]

/-- Concrete check discharging the hypotheses of `C1_update_existing_row`:
searching batman again against a table holding `rowB` (count 3) yields one
update of row 7 to count 4 and no new row. -/
theorem C1_update_existing_row_witness :
    (updateSearchCount envB "batman" movieB).ops
        = [RemoteOp.read "batman", RemoteOp.writeUpdate rowB.id (rowB.count + 1)] ∧
    (updateSearchCount envB "batman" movieB).db.length = envB.db.length ∧
    (envB.updateError = none →
      (updateSearchCount envB "batman" movieB).db
        = applyUpdate envB.db rowB.id (rowB.count + 1)) :=
  C1_update_existing_row envB "batman" movieB rowB rfl rfl

/-- C2: in every invocation whose lookup succeeds and returns no row, the
no-row outcome is not an error (the body can only throw what the insert
call itself returns), the insert branch is taken, and the single issued
write inserts one row with count 1, the given term, the movie id and the
constructed poster URL; when the insert call succeeds the resulting table
is the old table with exactly that one row appended. -/
theorem C2_insert_new_term (env : Env) (t : String) (idv pv : JsValue)
    (hsel : env.selectError = none)
    (hnone : selectByTerm env.db t = []) :
    (updateSearchCount env t (MovieArg.obj idv pv)).ops
        = [RemoteOp.read t,
           RemoteOp.writeInsert t 1 idv (posterBase ++ jsTemplate pv)] ∧
    (updateSearchCountBody env t (MovieArg.obj idv pv)).err = env.insertError ∧
    (env.insertError = none →
      (updateSearchCount env t (MovieArg.obj idv pv)).db
        = env.db ++ [insertedRow env t idv (posterBase ++ jsTemplate pv)]) := by
  cases hins : env.insertError with
  | some e =>
    simp [updateSearchCount, updateSearchCountBody, hsel, hnone, writeStep,
      MovieArg.getId, MovieArg.getPosterPath, hins]
  | none =>
    simp [updateSearchCount, updateSearchCountBody, hsel, hnone, writeStep,
      MovieArg.getId, MovieArg.getPosterPath, hins]

/-- Concrete check discharging the hypotheses of `C2_insert_new_term`:
a brand-new term against the empty table inserts one row. -/
theorem C2_insert_new_term_witness :
    (updateSearchCount envEmpty "robin" (MovieArg.obj (JsValue.vInt 9) (JsValue.vStr "/p.jpg"))).ops
        = [RemoteOp.read "robin",
           RemoteOp.writeInsert "robin" 1 (JsValue.vInt 9)
             (posterBase ++ jsTemplate (JsValue.vStr "/p.jpg"))] ∧
    (updateSearchCountBody envEmpty "robin" (MovieArg.obj (JsValue.vInt 9) (JsValue.vStr "/p.jpg"))).err
        = envEmpty.insertError ∧
    (envEmpty.insertError = none →
      (updateSearchCount envEmpty "robin" (MovieArg.obj (JsValue.vInt 9) (JsValue.vStr "/p.jpg"))).db
        = envEmpty.db ++ [insertedRow envEmpty "robin" (JsValue.vInt 9)
            (posterBase ++ jsTemplate (JsValue.vStr "/p.jpg"))]) :=
  C2_insert_new_term envEmpty "robin" (JsValue.vInt 9) (JsValue.vStr "/p.jpg") rfl rfl

/-- C3: for every input and every injected outcome of the remote calls,
the promise resolves (the catch clause turns every body error into a
resolution), the resolution value is undefined, a body error is logged as
the single console-error line, and nothing is logged otherwise. -/
theorem C3_failures_swallowed (env : Env) (t : String) (m : MovieArg) :
    updateSearchCountOutcome env t m = Except.ok (updateSearchCount env t m) ∧
    (updateSearchCount env t m).ret = JsValue.vUndefined ∧
    (∀ e, (updateSearchCountBody env t m).err = some e →
      (updateSearchCount env t m).logs = [logLine e]) ∧
    ((updateSearchCountBody env t m).err = none →
      (updateSearchCount env t m).logs = []) := by
  cases hb : (updateSearchCountBody env t m).err with
  | some e => simp [updateSearchCountOutcome, updateSearchCount, hb]
  | none => simp [updateSearchCountOutcome, updateSearchCount, hb]

/-- Concrete check for `C3_failures_swallowed` at an environment whose
select fails: the promise resolves with undefined and the error is the one
logged line. -/
theorem C3_failures_swallowed_witness :
    updateSearchCountOutcome envSelErr "batman" MovieArg.nullish
        = Except.ok (updateSearchCount envSelErr "batman" MovieArg.nullish) ∧
    (updateSearchCount envSelErr "batman" MovieArg.nullish).ret = JsValue.vUndefined ∧
    (updateSearchCount envSelErr "batman" MovieArg.nullish).logs
        = [logLine (JsError.storageError "boom")] :=
  ⟨(C3_failures_swallowed envSelErr "batman" MovieArg.nullish).1,
   (C3_failures_swallowed envSelErr "batman" MovieArg.nullish).2.1,
   (C3_failures_swallowed envSelErr "batman" MovieArg.nullish).2.2.1
     (JsError.storageError "boom") rfl⟩

/-- C4: when the select returns an error, the trace holds the read only
(no update and no insert is issued), the table is unchanged, the error is
logged, and the promise still resolves with undefined. -/
theorem C4_lookup_failure_no_write (env : Env) (t : String) (m : MovieArg) (e : JsError)
    (hsel : env.selectError = some e) :
    (updateSearchCount env t m).ops = [RemoteOp.read t] ∧
    (updateSearchCount env t m).db = env.db ∧
    (updateSearchCount env t m).logs = [logLine e] ∧
    (updateSearchCount env t m).ret = JsValue.vUndefined := by
  simp [updateSearchCount, updateSearchCountBody, hsel]

/-- Concrete check discharging the hypothesis of
`C4_lookup_failure_no_write` at the failing-select environment. -/
theorem C4_lookup_failure_no_write_witness :
    (updateSearchCount envSelErr "batman" movieB).ops = [RemoteOp.read "batman"] ∧
    (updateSearchCount envSelErr "batman" movieB).db = envSelErr.db ∧
    (updateSearchCount envSelErr "batman" movieB).logs
        = [logLine (JsError.storageError "boom")] ∧
    (updateSearchCount envSelErr "batman" movieB).ret = JsValue.vUndefined :=
  C4_lookup_failure_no_write envSelErr "batman" movieB (JsError.storageError "boom") rfl

/-- C5: on the insert path the stored poster URL is literally the fixed
image-host part concatenated with the template rendering of the poster
path value, whatever that value is (no validation), and in particular the
rendering of the path "/abc123.jpg" yields the expected full URL. -/
theorem C5_poster_url_concatenation (env : Env) (t : String) (idv pv : JsValue)
    (hsel : env.selectError = none)
    (hnone : selectByTerm env.db t = [])
    (hins : env.insertError = none) :
    (updateSearchCount env t (MovieArg.obj idv pv)).db
        = env.db ++ [insertedRow env t idv (posterBase ++ jsTemplate pv)] ∧
    (insertedRow env t idv (posterBase ++ jsTemplate pv)).poster_url
        = posterBase ++ jsTemplate pv ∧
    posterBase ++ jsTemplate (JsValue.vStr "/abc123.jpg")
        = "https://image.tmdb.org/t/p/w500/abc123.jpg" := by
  refine ⟨?_, rfl, rfl⟩
  simp [updateSearchCount, updateSearchCountBody, hsel, hnone, writeStep,
    MovieArg.getId, MovieArg.getPosterPath, hins]

/-- Concrete check discharging the hypotheses of
`C5_poster_url_concatenation` at the empty table with the path of the spec
example. -/
theorem C5_poster_url_concatenation_witness :
    (updateSearchCount envEmpty "robin" (MovieArg.obj (JsValue.vInt 9) (JsValue.vStr "/abc123.jpg"))).db
        = envEmpty.db ++ [insertedRow envEmpty "robin" (JsValue.vInt 9)
            (posterBase ++ jsTemplate (JsValue.vStr "/abc123.jpg"))] ∧
    (insertedRow envEmpty "robin" (JsValue.vInt 9)
        (posterBase ++ jsTemplate (JsValue.vStr "/abc123.jpg"))).poster_url
        = posterBase ++ jsTemplate (JsValue.vStr "/abc123.jpg") ∧
    posterBase ++ jsTemplate (JsValue.vStr "/abc123.jpg")
        = "https://image.tmdb.org/t/p/w500/abc123.jpg" :=
  C5_poster_url_concatenation envEmpty "robin" (JsValue.vInt 9)
    (JsValue.vStr "/abc123.jpg") rfl rfl rfl

/-- C6: with a null poster path the operation still completes without any
throw (the body error is none) and stores the fixed URL part followed by
the placeholder rendering "null"; with the field absent (undefined) it
stores the placeholder rendering "undefined". -/
theorem C6_nullish_poster_path (env : Env) (t : String) (idv : JsValue)
    (hsel : env.selectError = none)
    (hnone : selectByTerm env.db t = [])
    (hins : env.insertError = none) :
    (updateSearchCountBody env t (MovieArg.obj idv JsValue.vNull)).err = none ∧
    (updateSearchCount env t (MovieArg.obj idv JsValue.vNull)).db
        = env.db ++ [insertedRow env t idv (posterBase ++ "null")] ∧
    (updateSearchCountBody env t (MovieArg.obj idv JsValue.vUndefined)).err = none ∧
    (updateSearchCount env t (MovieArg.obj idv JsValue.vUndefined)).db
        = env.db ++ [insertedRow env t idv (posterBase ++ "undefined")] := by
  refine ⟨?_, ?_, ?_, ?_⟩ <;>
    simp [updateSearchCount, updateSearchCountBody, hsel, hnone, writeStep,
      MovieArg.getId, MovieArg.getPosterPath, hins, jsTemplate]

/-- Concrete check discharging the hypotheses of `C6_nullish_poster_path`
at the empty table. -/
theorem C6_nullish_poster_path_witness :
    (updateSearchCountBody envEmpty "robin" (MovieArg.obj (JsValue.vInt 9) JsValue.vNull)).err = none ∧
    (updateSearchCount envEmpty "robin" (MovieArg.obj (JsValue.vInt 9) JsValue.vNull)).db
        = envEmpty.db ++ [insertedRow envEmpty "robin" (JsValue.vInt 9) (posterBase ++ "null")] ∧
    (updateSearchCountBody envEmpty "robin" (MovieArg.obj (JsValue.vInt 9) JsValue.vUndefined)).err = none ∧
    (updateSearchCount envEmpty "robin" (MovieArg.obj (JsValue.vInt 9) JsValue.vUndefined)).db
        = envEmpty.db ++ [insertedRow envEmpty "robin" (JsValue.vInt 9) (posterBase ++ "undefined")] :=
  C6_nullish_poster_path envEmpty "robin" (JsValue.vInt 9) rfl rfl rfl

/-- C10: the promise returned by the function never rejects, for every
argument pair, including a nullish movie whose field reads throw inside
the body: the single enclosing try/catch catches everything and the
resolution value is always undefined. -/
theorem C10_promise_never_rejects (env : Env) (t : String) (m : MovieArg) :
    updateSearchCountOutcome env t m = Except.ok (updateSearchCount env t m) ∧
    (updateSearchCount env t m).ret = JsValue.vUndefined := by
  cases hb : (updateSearchCountBody env t m).err with
  | some e => simp [updateSearchCountOutcome, updateSearchCount, hb]
  | none => simp [updateSearchCountOutcome, updateSearchCount, hb]

/-- C7 counterexample: at the concrete environment whose select call
fails, the invocation issues zero remote writes, refuting the claim that
every invocation performs exactly one remote write after the read. -/
theorem C7_counterexample :
    ¬ ((updateSearchCount envSelErr "batman" movieB).ops.countP RemoteOp.isWrite = 1) := by
  decide

/-- C7 (amended): every invocation issues exactly one remote read, which
comes first, and never more than one remote write; when the lookup
succeeds, exactly one write (the update or the insert, never both) is
issued, unless the movie argument is nullish on the insert path, where the
exception thrown while evaluating the insert payload prevents the write. -/
theorem C7_one_read_at_most_one_write (env : Env) (t : String) (m : MovieArg) :
    (updateSearchCount env t m).ops.countP RemoteOp.isRead = 1 ∧
    (updateSearchCount env t m).ops.countP RemoteOp.isWrite ≤ 1 ∧
    (updateSearchCount env t m).ops.head? = some (RemoteOp.read t) ∧
    (env.selectError = none →
      (selectByTerm env.db t ≠ [] ∨ m ≠ MovieArg.nullish) →
      (updateSearchCount env t m).ops.countP RemoteOp.isWrite = 1) := by
  cases hsel : env.selectError with
  | some e =>
    simp [updateSearchCount, updateSearchCountBody, hsel, List.countP_cons,
      RemoteOp.isRead, RemoteOp.isWrite]
  | none =>
    rcases hl : selectByTerm env.db t with _ | ⟨a, as⟩
    · cases m with
      | nullish =>
        simp [updateSearchCount, updateSearchCountBody, writeStep, hsel, hl,
          MovieArg.getId, MovieArg.getPosterPath, List.countP_cons,
          RemoteOp.isRead, RemoteOp.isWrite]
      | obj i p =>
        cases hins : env.insertError <;>
          simp [updateSearchCount, updateSearchCountBody, writeStep, hsel, hl, hins,
            MovieArg.getId, MovieArg.getPosterPath, List.countP_cons,
            RemoteOp.isRead, RemoteOp.isWrite]
    · cases hupd : env.updateError <;>
        simp [updateSearchCount, updateSearchCountBody, writeStep, hsel, hl, hupd,
          List.countP_cons, RemoteOp.isRead, RemoteOp.isWrite]

/-- Concrete check for `C7_one_read_at_most_one_write`: against the table
holding the batman row, the run issues exactly one read and one write. -/
theorem C7_one_read_at_most_one_write_witness :
    (updateSearchCount envB "batman" movieB).ops.countP RemoteOp.isRead = 1 ∧
    (updateSearchCount envB "batman" movieB).ops.countP RemoteOp.isWrite = 1 :=
  ⟨(C7_one_read_at_most_one_write envB "batman" movieB).1,
   (C7_one_read_at_most_one_write envB "batman" movieB).2.2.2 rfl
     (Or.inl (by decide))⟩

/-- When the limited select returns nothing, no row of the table matches
the term at all. -/
theorem selectByTerm_eq_nil_filter {db : List Row} {t : String}
    (h : selectByTerm db t = []) : db.filter (fun r => r.searchTerm == t) = [] := by
  unfold selectByTerm at h
  rcases hf : db.filter (fun r => r.searchTerm == t) with _ | ⟨a, as⟩
  · exact hf
  · rw [hf] at h
    simp at h

/-- Applying the same count update twice leaves the table as after one
application: the second write overwrites with the same value, so one of
the two increments is lost. -/
theorem applyUpdate_applyUpdate (db : List Row) (i : Nat) (c : Int) :
    applyUpdate (applyUpdate db i c) i c = applyUpdate db i c := by
  unfold applyUpdate
  rw [List.map_map]
  apply List.map_congr_left
  intro r _
  by_cases h : r.id == i
  · simp [Function.comp, h]
  · simp [Function.comp, h]

/-- C8: under the interleaving the awaits permit, where both selects
complete before either write is issued, a brand-new term ends up with two
rows (the intended at-most-one-row invariant is not enforced), and two
concurrent increments of an existing row both write the same count, losing
one update. -/
theorem C8_read_write_races (envA envB2 : Env) (t : String)
    (i1 p1 i2 p2 : JsValue) (r : Row) :
    (selectByTerm envA.db t = [] → envA.insertError = none → envB2.insertError = none →
      (raceBothReadFirst envA envB2 t (MovieArg.obj i1 p1) (MovieArg.obj i2 p2)).countP
          (fun row => row.searchTerm == t) = 2) ∧
    (selectByTerm envA.db t = [r] → envA.updateError = none → envB2.updateError = none →
      raceBothReadFirst envA envB2 t (MovieArg.obj i1 p1) (MovieArg.obj i2 p2)
        = applyUpdate envA.db r.id (r.count + 1)) := by
  constructor
  · intro h0 hiA hiB
    have hf : envA.db.filter (fun row => row.searchTerm == t) = [] :=
      selectByTerm_eq_nil_filter h0
    have hc : envA.db.countP (fun row => row.searchTerm == t) = 0 := by
      rw [List.countP_eq_length_filter, hf]
      rfl
    simp [raceBothReadFirst, h0, writeStep, hiA, hiB,
      MovieArg.getId, MovieArg.getPosterPath, insertedRow,
      List.countP_append, List.countP_cons, hc]
  · intro hr huA huB
    simp [raceBothReadFirst, hr, writeStep, huA, huB]
    exact applyUpdate_applyUpdate envA.db r.id (r.count + 1)

/-- Concrete check for `C8_read_write_races`: two racing invocations for a
brand-new term against the empty table leave two rows for that term. -/
theorem C8_read_write_races_witness :
    (raceBothReadFirst envEmpty envEmpty2 "robin"
        (MovieArg.obj (JsValue.vInt 9) JsValue.vNull)
        (MovieArg.obj (JsValue.vInt 9) JsValue.vNull)).countP
      (fun row => row.searchTerm == "robin") = 2 :=
  (C8_read_write_races envEmpty envEmpty2 "robin" (JsValue.vInt 9) JsValue.vNull
      (JsValue.vInt 9) JsValue.vNull rowB).1 rfl rfl rfl

/-- C9: on the update path the movie argument is never read, so two runs
with different movies are identical, and when the update call succeeds the
resulting table keeps searchTerm, movie_id, poster_url and created_at of
every row (the payload holds only the count field); only the count of the
matched row changes. -/
theorem C9_update_payload_only_count (env : Env) (t : String) (m1 m2 : MovieArg) (r : Row)
    (hsel : env.selectError = none)
    (hrow : (selectByTerm env.db t).head? = some r) :
    updateSearchCount env t m1 = updateSearchCount env t m2 ∧
    (env.updateError = none →
      (updateSearchCount env t m1).db
        = env.db.map (fun row =>
            if row.id == r.id then
              { id := row.id, searchTerm := row.searchTerm, count := r.count + 1,
                movie_id := row.movie_id, poster_url := row.poster_url,
                created_at := row.created_at }
            else row)) := by
  rcases hlm : selectByTerm env.db t with _ | ⟨a, as⟩
  · rw [hlm] at hrow
    simp at hrow
  · rw [hlm] at hrow
    rw [List.head?_cons, Option.some_inj] at hrow
    subst hrow
    constructor
    · simp [updateSearchCount, updateSearchCountBody, hsel, hlm, writeStep]
    · intro hupd
      simp [updateSearchCount, updateSearchCountBody, hsel, hlm, writeStep, hupd,
        applyUpdate]

/-- Concrete check discharging the hypotheses of
`C9_update_payload_only_count`: the run with a movie object equals the run
with a nullish movie, and only the count cell of row 7 changes. -/
theorem C9_update_payload_only_count_witness :
    updateSearchCount envB "batman" movieB
        = updateSearchCount envB "batman" MovieArg.nullish ∧
    (envB.updateError = none →
      (updateSearchCount envB "batman" movieB).db
        = envB.db.map (fun row =>
            if row.id == rowB.id then
              { id := row.id, searchTerm := row.searchTerm, count := rowB.count + 1,
                movie_id := row.movie_id, poster_url := row.poster_url,
                created_at := row.created_at }
            else row)) :=
  C9_update_payload_only_count envB "batman" movieB MovieArg.nullish rowB rfl rfl
